import Mathlib

/-!
Shallow embedding of the persistent-state and pattern-analysis core of the
`hybridsystem` productivity tracker (`src/core/state.ts`), together with
theorems checking the specification's claims about it.

Modelling conventions:
* Calendar dates in the sprint tracker are `YYYY-MM-DD` strings in the source;
  `dayjs(a).diff(dayjs(b), 'day')` on two such strings is exact integer
  subtraction of day numbers, so sprint dates are modelled as `Int` day
  numbers.
* Timestamps used for the trailing-7-day windows and for sorting are modelled
  as `ℚ` (time measured in days); `dayjs(x).isAfter(y)` becomes `y < x`.
* `dayjs(r.timestamp).hour()` (the local hour of a timestamp) is carried as an
  explicit `hour` field of an energy reading, since the timezone conversion is
  outside the embedded core.
* Mutating store operations become explicit state passing: each operation
  returns its result together with the store contents it persists.
* JavaScript numbers holding counts are modelled as `Nat`, averages and rates
  as `ℚ`.
-/

namespace HybridSystem

/-- `EnergyLevel` from `types.ts`: ordinal self-assessment of work capacity. -/
inductive EnergyLevel
  | high
  | medium
  | low
  | depleted
  | recovery
deriving DecidableEq, Repr

/-- `TaskPriority` from `types.ts`: the four task categories. -/
inductive TaskPriority
  | deep
  | standard
  | light
  | someday
deriving DecidableEq, Repr

/-- `Task` from `types.ts`. A missing `notes` array is indistinguishable from
an empty one in every embedded operation, so `notes` is a plain list. -/
structure Task where
  id : String
  content : String
  priority : TaskPriority
  createdAt : String
  completedAt : Option String := none
  rollForwardCount : Nat := 0
  notes : List String := []
deriving DecidableEq, Repr

/-- `EnergyReading` from `types.ts`; `timestamp` is the instant in days,
`hour` is `dayjs(timestamp).hour()`, the local hour of that instant. -/
structure EnergyReading where
  timestamp : ℚ
  hour : Nat
  level : EnergyLevel
  context : Option String := none
deriving DecidableEq, Repr

/-- `DailyEntry` from `types.ts`; `date` is the timestamp of local midnight of
the entry's `YYYY-MM-DD` key, in days. -/
structure DailyEntry where
  date : ℚ
  sprintDay : Nat := 0
  energyReadings : List EnergyReading := []
  tasksCompleted : List String := []
  tasksRolledForward : List String := []
  fieldReports : List String := []
deriving DecidableEq, Repr

/-- The sprint thresholds read from the configuration (`config.sprint`). -/
structure Config where
  warningDay : Nat
  dangerDay : Nat
deriving DecidableEq, Repr

/-- The persisted `SprintStore` record of `state.ts` (`sprint.json`). -/
structure SprintStore where
  currentDay : Nat
  startDate : Int
  lastWorkDay : Int
  restDays : List Int
deriving DecidableEq, Repr

/-- The `'healthy' | 'warning' | 'danger'` union of `SprintStatus.status`. -/
inductive SprintHealth
  | healthy
  | warning
  | danger
deriving DecidableEq, Repr

/-- `SprintStatus` from `types.ts`, as returned to callers. -/
structure SprintStatus where
  currentDay : Nat
  startDate : Int
  status : SprintHealth
  lastRestDay : Option Int
deriving DecidableEq, Repr

/-- The default sprint store substituted by `getSprintStatus` when
`sprint.json` is missing or unparsable. -/
def freshSprintStore (today : Int) : SprintStore :=
  { currentDay := 1
    startDate := today
    lastWorkDay := today
    restDays := [] }

/-- `getSprintStatus` from `state.ts`, acting on an already-loaded store:
if `lastWorkDay` is not today, a gap of more than one day resets the sprint
and otherwise the day counter advances, `lastWorkDay` becomes today and the
store is persisted; the status classifies `currentDay` against the two
configured thresholds. Returns the status together with the persisted store. -/
def getSprintStatus (cfg : Config) (today : Int) (store : SprintStore) :
    SprintStatus × SprintStore :=
  let store :=
    if store.lastWorkDay ≠ today then
      let daysSinceLastWork : Int := today - store.lastWorkDay
      let store :=
        if daysSinceLastWork > 1 then
          { store with currentDay := 1, startDate := today }
        else
          { store with currentDay := store.currentDay + 1 }
      { store with lastWorkDay := today }
    else store
  let status : SprintHealth :=
    if store.currentDay ≥ cfg.dangerDay then .danger
    else if store.currentDay ≥ cfg.warningDay then .warning
    else .healthy
  ({ currentDay := store.currentDay
     startDate := store.startDate
     status := status
     lastRestDay := store.restDays.getLast? },
   store)

theorem getSprintStatus_snd_lastWorkDay (cfg : Config) (today : Int)
    (store : SprintStore) :
    ((getSprintStatus cfg today store).2).lastWorkDay = today := by
  unfold getSprintStatus
  by_cases h : store.lastWorkDay = today <;> simp [h]

theorem getSprintStatus_of_lastWorkDay_today (cfg : Config) (today : Int)
    (store : SprintStore) (h : store.lastWorkDay = today) :
    (getSprintStatus cfg today store).2 = store := by
  unfold getSprintStatus
  simp [h]

theorem getSprintStatus_fst_currentDay (cfg : Config) (today : Int)
    (store : SprintStore) :
    ((getSprintStatus cfg today store).1).currentDay =
      ((getSprintStatus cfg today store).2).currentDay := by
  unfold getSprintStatus
  by_cases h : store.lastWorkDay = today <;> simp [h]

theorem getSprintStatus_snd_of_gap_gt (cfg : Config) (today : Int)
    (store : SprintStore) (hday : store.lastWorkDay ≠ today)
    (hgap : 1 < today - store.lastWorkDay) :
    (getSprintStatus cfg today store).2 =
      { store with currentDay := 1, startDate := today, lastWorkDay := today } := by
  simp [getSprintStatus, hday, hgap]

theorem getSprintStatus_snd_of_gap_le (cfg : Config) (today : Int)
    (store : SprintStore) (hday : store.lastWorkDay ≠ today)
    (hgap : ¬ 1 < today - store.lastWorkDay) :
    (getSprintStatus cfg today store).2 =
      { store with currentDay := store.currentDay + 1, lastWorkDay := today } := by
  simp [getSprintStatus, hday, hgap]

theorem getSprintStatus_fst_status (cfg : Config) (today : Int)
    (store : SprintStore) :
    ((getSprintStatus cfg today store).1).status =
      (if cfg.dangerDay ≤ ((getSprintStatus cfg today store).2).currentDay then
        .danger
      else if cfg.warningDay ≤ ((getSprintStatus cfg today store).2).currentDay
        then .warning
      else .healthy) := by
  unfold getSprintStatus
  by_cases h : store.lastWorkDay = today
  · simp [h]
  · by_cases hg : today - store.lastWorkDay > 1 <;> simp [h, hg]

/-- Claim C1: on the first `getSprintStatus` call of a new day (the persisted
`lastWorkDay` is not today), a gap of more than one day resets the sprint to
`currentDay = 1` with `startDate = today`, a gap of exactly one day increments
`currentDay` by one, in both cases `lastWorkDay` becomes today in the
persisted store, and the returned status classifies the updated `currentDay`
as `danger` when it reaches `dangerDay`, else `warning` when it reaches
`warningDay`, else `healthy` (given `warningDay < dangerDay`). -/
theorem sprint_day_transition (cfg : Config) (today : Int) (store : SprintStore)
    (hcfg : cfg.warningDay < cfg.dangerDay)
    (hday : store.lastWorkDay ≠ today) :
    (1 < today - store.lastWorkDay →
      ((getSprintStatus cfg today store).2).currentDay = 1 ∧
      ((getSprintStatus cfg today store).2).startDate = today) ∧
    (today - store.lastWorkDay = 1 →
      ((getSprintStatus cfg today store).2).currentDay = store.currentDay + 1) ∧
    ((getSprintStatus cfg today store).2).lastWorkDay = today ∧
    ((getSprintStatus cfg today store).1).currentDay =
      ((getSprintStatus cfg today store).2).currentDay ∧
    (cfg.dangerDay ≤ ((getSprintStatus cfg today store).2).currentDay →
      ((getSprintStatus cfg today store).1).status = .danger) ∧
    (((getSprintStatus cfg today store).2).currentDay < cfg.dangerDay →
      cfg.warningDay ≤ ((getSprintStatus cfg today store).2).currentDay →
      ((getSprintStatus cfg today store).1).status = .warning) ∧
    (((getSprintStatus cfg today store).2).currentDay < cfg.warningDay →
      ((getSprintStatus cfg today store).1).status = .healthy) := by
  have hstat := getSprintStatus_fst_status cfg today store
  refine ⟨?_, ?_, getSprintStatus_snd_lastWorkDay cfg today store,
    getSprintStatus_fst_currentDay cfg today store, ?_, ?_, ?_⟩
  · intro hgap
    rw [getSprintStatus_snd_of_gap_gt cfg today store hday hgap]
    exact ⟨rfl, rfl⟩
  · intro hgap
    rw [getSprintStatus_snd_of_gap_le cfg today store hday (by omega)]
  · intro hd
    rw [hstat, if_pos hd]
  · intro hd hw
    rw [hstat, if_neg (by omega), if_pos hw]
  · intro hw
    rw [hstat, if_neg (by omega), if_neg (by omega)]

/-- Witness for C1: a concrete store last worked yesterday, with thresholds
`warningDay = 2 < dangerDay = 4`, advances from day 1 to day 2 and reports
`warning`. -/
theorem sprint_day_transition_witness :
    ((getSprintStatus ⟨2, 4⟩ 10 ⟨1, 9, 9, []⟩).2).currentDay = 2 ∧
    ((getSprintStatus ⟨2, 4⟩ 10 ⟨1, 9, 9, []⟩).2).lastWorkDay = 10 ∧
    ((getSprintStatus ⟨2, 4⟩ 10 ⟨1, 9, 9, []⟩).1).status = .warning := by
  have h := sprint_day_transition ⟨2, 4⟩ 10 ⟨1, 9, 9, []⟩ (by decide) (by decide)
  refine ⟨h.2.1 (by decide), h.2.2.1, ?_⟩
  exact h.2.2.2.2.2.1 (by decide) (by decide)

/-- Claim C3: `getSprintStatus` is idempotent within a calendar day — after a
first call, a second call with the same `today` returns the same `currentDay`
and leaves the persisted sprint store unchanged. -/
theorem sprint_same_day_idempotent (cfg : Config) (today : Int)
    (store : SprintStore) :
    ((getSprintStatus cfg today
        ((getSprintStatus cfg today store).2)).1).currentDay =
      ((getSprintStatus cfg today store).1).currentDay ∧
    (getSprintStatus cfg today ((getSprintStatus cfg today store).2)).2 =
      (getSprintStatus cfg today store).2 := by
  have hlw := getSprintStatus_snd_lastWorkDay cfg today store
  have hfix := getSprintStatus_of_lastWorkDay_today cfg today
    ((getSprintStatus cfg today store).2) hlw
  constructor
  · rw [getSprintStatus_fst_currentDay, hfix, getSprintStatus_fst_currentDay]
  · exact hfix

/-- The note `rollForwardTask` appends for a roll on date `today`
(`YYYY-MM-DD`). -/
def rollNote (today : String) : String := "Rolled forward on " ++ today

/-- `completeTask` from `state.ts`: find the first task with the given id,
set its `completedAt` to now and persist; an unknown id returns `none` and
writes nothing. The returned list is the persisted store contents. -/
def completeTask (now : String) (taskId : String) :
    List Task → Option Task × List Task
  | [] => (none, [])
  | t :: ts =>
    if t.id = taskId then
      let t := { t with completedAt := some now }
      (some t, t :: ts)
    else
      let r := completeTask now taskId ts
      (r.1, t :: r.2)

/-- `rollForwardTask` from `state.ts`: find the first task with the given id,
increment `rollForwardCount` by one, append a roll note dated today and
persist; an unknown id returns `none` and writes nothing. -/
def rollForwardTask (today : String) (taskId : String) :
    List Task → Option Task × List Task
  | [] => (none, [])
  | t :: ts =>
    if t.id = taskId then
      let t := { t with
        rollForwardCount := t.rollForwardCount + 1
        notes := t.notes ++ [rollNote today] }
      (some t, t :: ts)
    else
      let r := rollForwardTask today taskId ts
      (r.1, t :: r.2)

/-- `getTasksByPriority` from `state.ts`: active tasks of one category. -/
def getTasksByPriority (priority : TaskPriority) (tasks : List Task) :
    List Task :=
  tasks.filter (fun t => decide (t.priority = priority) && t.completedAt.isNone)

/-- `getAvoidedTasks` from `state.ts`: active tasks rolled forward at least
`minRollCount` times (the callers use the default `minRollCount = 3`). -/
def getAvoidedTasks (minRollCount : Nat) (tasks : List Task) : List Task :=
  tasks.filter (fun t =>
    decide (t.rollForwardCount ≥ minRollCount) && t.completedAt.isNone)

/-- Claim C6: membership in `getAvoidedTasks minRollCount` is exactly
`rollForwardCount ≥ minRollCount` together with `completedAt` unset, over the
stored tasks. -/
theorem getAvoidedTasks_spec (minRollCount : Nat) (tasks : List Task)
    (t : Task) :
    t ∈ getAvoidedTasks minRollCount tasks ↔
      t ∈ tasks ∧ minRollCount ≤ t.rollForwardCount ∧ t.completedAt = none := by
  simp [getAvoidedTasks, List.mem_filter, Option.isNone_iff_eq_none,
    and_assoc]

/-- Claim C8: with an id absent from the store, `completeTask` and
`rollForwardTask` both return the not-found result `none` and leave the task
store exactly as it was. -/
theorem not_found_leaves_store_unchanged (now today taskId : String)
    (tasks : List Task) (h : ∀ t ∈ tasks, t.id ≠ taskId) :
    completeTask now taskId tasks = (none, tasks) ∧
    rollForwardTask today taskId tasks = (none, tasks) := by
  induction tasks with
  | nil => exact ⟨rfl, rfl⟩
  | cons t ts ih =>
    have ht : t.id ≠ taskId := h t (List.mem_cons_self t ts)
    have ih' := ih (fun u hu => h u (List.mem_cons_of_mem t hu))
    constructor
    · simp only [completeTask, if_neg ht, ih'.1]
    · simp only [rollForwardTask, if_neg ht, ih'.2]

/-- Witness for C8: a concrete one-task store and an id it does not contain. -/
theorem not_found_leaves_store_unchanged_witness :
    completeTask "2026-01-05T09:00:00Z" "missing"
        [{ id := "a", content := "Write report", priority := .deep,
           createdAt := "2026-01-01T08:00:00Z" }] =
      (none,
        [{ id := "a", content := "Write report", priority := .deep,
           createdAt := "2026-01-01T08:00:00Z" }]) ∧
    rollForwardTask "2026-01-05" "missing"
        [{ id := "a", content := "Write report", priority := .deep,
           createdAt := "2026-01-01T08:00:00Z" }] =
      (none,
        [{ id := "a", content := "Write report", priority := .deep,
           createdAt := "2026-01-01T08:00:00Z" }]) :=
  not_found_leaves_store_unchanged "2026-01-05T09:00:00Z" "2026-01-05"
    "missing"
    [{ id := "a", content := "Write report", priority := .deep,
       createdAt := "2026-01-01T08:00:00Z" }]
    (by decide)

/-- Claim C10: `rollForwardTask` on an already-completed task still increments
its `rollForwardCount`, appends a roll note and persists the updated task —
the store does not enforce the terminal-task convention — while the filtering
read operations (`getTasksByPriority`, `getAvoidedTasks`) exclude the
completed task from their results. -/
theorem rollForward_ignores_completed (today taskId c : String)
    (pre post : List Task) (t : Task)
    (hpre : ∀ u ∈ pre, u.id ≠ taskId) (hid : t.id = taskId)
    (hc : t.completedAt = some c) :
    rollForwardTask today taskId (pre ++ t :: post) =
      (some { t with
          rollForwardCount := t.rollForwardCount + 1
          notes := t.notes ++ [rollNote today] },
       pre ++ { t with
          rollForwardCount := t.rollForwardCount + 1
          notes := t.notes ++ [rollNote today] } :: post) ∧
    (∀ p, { t with
          rollForwardCount := t.rollForwardCount + 1
          notes := t.notes ++ [rollNote today] } ∉
        getTasksByPriority p (pre ++ { t with
          rollForwardCount := t.rollForwardCount + 1
          notes := t.notes ++ [rollNote today] } :: post)) ∧
    (∀ m, { t with
          rollForwardCount := t.rollForwardCount + 1
          notes := t.notes ++ [rollNote today] } ∉
        getAvoidedTasks m (pre ++ { t with
          rollForwardCount := t.rollForwardCount + 1
          notes := t.notes ++ [rollNote today] } :: post)) := by
  refine ⟨?_, ?_, ?_⟩
  · induction pre with
    | nil => simp [rollForwardTask, hid]
    | cons u us ih =>
      have hu : u.id ≠ taskId := hpre u (List.mem_cons_self u us)
      have ih' := ih (fun v hv => hpre v (List.mem_cons_of_mem u hv))
      simp only [List.cons_append, rollForwardTask, if_neg hu,
        List.append_eq, ih']
  · intro p hmem
    have := (List.mem_filter.mp hmem).2
    simp [hc] at this
  · intro m hmem
    have := (List.mem_filter.mp hmem).2
    simp [hc] at this

/-- Witness for C10: rolling forward a concrete completed task increments its
count to 1, appends the roll note, persists it, and the read filters hide it. -/
theorem rollForward_ignores_completed_witness :
    rollForwardTask "2026-01-06" "a"
        [{ id := "a", content := "Ship release", priority := .standard,
           createdAt := "2026-01-01T08:00:00Z",
           completedAt := some "2026-01-02T08:00:00Z" }] =
      (some { id := "a", content := "Ship release", priority := .standard,
              createdAt := "2026-01-01T08:00:00Z",
              completedAt := some "2026-01-02T08:00:00Z",
              rollForwardCount := 1,
              notes := ["Rolled forward on 2026-01-06"] },
       [{ id := "a", content := "Ship release", priority := .standard,
          createdAt := "2026-01-01T08:00:00Z",
          completedAt := some "2026-01-02T08:00:00Z",
          rollForwardCount := 1,
          notes := ["Rolled forward on 2026-01-06"] }]) ∧
    { id := "a", content := "Ship release", priority := .standard,
      createdAt := "2026-01-01T08:00:00Z",
      completedAt := some "2026-01-02T08:00:00Z",
      rollForwardCount := 1,
      notes := ["Rolled forward on 2026-01-06"] } ∉
      getAvoidedTasks 0
        [{ id := "a", content := "Ship release", priority := .standard,
           createdAt := "2026-01-01T08:00:00Z",
           completedAt := some "2026-01-02T08:00:00Z",
           rollForwardCount := 1,
           notes := ["Rolled forward on 2026-01-06"] }] := by
  have h := rollForward_ignores_completed "2026-01-06" "a"
    "2026-01-02T08:00:00Z" [] []
    { id := "a", content := "Ship release", priority := .standard,
      createdAt := "2026-01-01T08:00:00Z",
      completedAt := some "2026-01-02T08:00:00Z" }
    (by decide) rfl rfl
  exact ⟨h.1, h.2.2 0⟩

/-- The `levelValues` table of `calculateAverageEnergy` in `state.ts`. -/
def levelValue : EnergyLevel → ℚ
  | .high => 5
  | .medium => 4
  | .low => 3
  | .depleted => 2
  | .recovery => 1

/-- Insertion step of the chronological sort of `getRecentEnergyReadings`. -/
def insertByTime (r : EnergyReading) : List EnergyReading → List EnergyReading
  | [] => [r]
  | x :: xs =>
    if r.timestamp ≤ x.timestamp then r :: x :: xs else x :: insertByTime r xs

/-- The comparator sort `readings.sort((a, b) => unix(a) - unix(b))` of
`getRecentEnergyReadings`, as an insertion sort on the timestamp key. -/
def sortByTime : List EnergyReading → List EnergyReading
  | [] => []
  | x :: xs => insertByTime x (sortByTime xs)

/-- `getRecentEnergyReadings` from `state.ts`: flatten the readings of the
entries dated after `now - days` and sort them chronologically. -/
def getRecentEnergyReadings (now : ℚ) (days : ℚ) (entries : List DailyEntry) :
    List EnergyReading :=
  let cutoff := now - days
  let readings :=
    ((entries.filter (fun e => decide (cutoff < e.date))).map
      (fun e => e.energyReadings)).flatten
  sortByTime readings

/-- `calculateAverageEnergy` from `state.ts`: `0` for an empty list, else the
sum of the fixed level weights divided by the number of readings. -/
def calculateAverageEnergy (readings : List EnergyReading) : ℚ :=
  if readings.length = 0 then 0
  else
    readings.foldl (fun acc r => acc + levelValue r.level) 0 /
      (readings.length : ℚ)

/-- The morning filter of `analyzePatterns`: local hour in `[6, 12)`. -/
def morningOf (readings : List EnergyReading) : List EnergyReading :=
  readings.filter (fun r => decide (6 ≤ r.hour) && decide (r.hour < 12))

/-- The afternoon filter of `analyzePatterns`: local hour in `[12, 18)`. -/
def afternoonOf (readings : List EnergyReading) : List EnergyReading :=
  readings.filter (fun r => decide (12 ≤ r.hour) && decide (r.hour < 18))

/-- The evening filter of `analyzePatterns`: local hour `≥ 18` or `< 6`. -/
def eveningOf (readings : List EnergyReading) : List EnergyReading :=
  readings.filter (fun r => decide (18 ≤ r.hour) || decide (r.hour < 6))

/-- The `recentDays` filter of `analyzePatterns`: daily entries whose date is
after `now` minus 7 days. -/
def recentDays (now : ℚ) (entries : List DailyEntry) : List DailyEntry :=
  entries.filter (fun e => decide (now - 7 < e.date))

/-- `totalCompleted` of `analyzePatterns`: completions recorded against the
recent daily entries. -/
def totalCompleted (now : ℚ) (entries : List DailyEntry) : Nat :=
  (recentDays now entries).foldl (fun acc e => acc + e.tasksCompleted.length) 0

/-- `totalRolled` of `analyzePatterns`: roll-forwards recorded against the
recent daily entries. -/
def totalRolled (now : ℚ) (entries : List DailyEntry) : Nat :=
  (recentDays now entries).foldl
    (fun acc e => acc + e.tasksRolledForward.length) 0

/-- Drop `pat` from the front of a character list if it is a prefix there. -/
def dropPat : List Char → List Char → Option (List Char)
  | [], cs => some cs
  | _ :: _, [] => none
  | p :: ps, c :: cs => if p = c then dropPat ps cs else none

/-- Remove the first occurrence of `pat`, as JavaScript
`String.prototype.replace(pat, '')` does. -/
def removeFirstOcc (pat : List Char) : List Char → List Char
  | [] => []
  | c :: cs =>
    match dropPat pat (c :: cs) with
    | some rest => rest
    | none => c :: removeFirstOcc pat cs

/-- JavaScript `s.replace(pat, '')`: delete the first occurrence of `pat`. -/
def jsReplaceFirst (s pat : String) : String :=
  String.mk (removeFirstOcc pat.data s.data)

/-- The `firstRolled` expression of `analyzePatterns`:
`t.notes?.[0]?.replace('Rolled forward on ', '') || t.createdAt` — the first
note with the roll marker deleted, falling back to `createdAt` when there is
no note or the result is the empty string (JavaScript `||` on a falsy value). -/
def firstRolledOf (t : Task) : String :=
  match t.notes.head? with
  | some n =>
    let r := jsReplaceFirst n "Rolled forward on "
    if r = "" then t.createdAt else r
  | none => t.createdAt

/-- `AvoidancePattern` from `types.ts`. -/
structure AvoidancePattern where
  taskId : String
  taskContent : String
  rollCount : Nat
  firstRolled : String
  category : TaskPriority
deriving DecidableEq, Repr

/-- The `'morning' | 'afternoon' | 'evening'` union of `EnergyTrend.period`. -/
inductive TrendPeriod
  | morning
  | afternoon
  | evening
deriving DecidableEq, Repr

/-- `EnergyTrend` from `types.ts`. -/
structure EnergyTrend where
  period : TrendPeriod
  averageLevel : ℚ
  sampleCount : Nat
deriving DecidableEq, Repr

/-- `CategoryBalance` from `types.ts`. -/
structure CategoryBalance where
  deep : Nat
  standard : Nat
  light : Nat
  someday : Nat
deriving DecidableEq, Repr

/-- The `'low' | 'medium' | 'high'` union of `PatternAnalysis.burnoutRisk`. -/
inductive BurnoutRisk
  | low
  | medium
  | high
deriving DecidableEq, Repr

/-- `PatternAnalysis` from `types.ts`. -/
structure PatternAnalysis where
  avoidancePatterns : List AvoidancePattern
  energyTrends : List EnergyTrend
  completionRate : ℚ
  categoryBalance : CategoryBalance
  burnoutRisk : BurnoutRisk
deriving DecidableEq, Repr

/-- `analyzePatterns` from `state.ts`, as a pure function of the loaded task
list, daily entries and sprint store; `today` is the current date as a day
number, `now` the current instant in days. It returns the analysis together
with the sprint store persisted by the embedded `getSprintStatus` call. -/
def analyzePatterns (cfg : Config) (today : Int) (now : ℚ)
    (tasks : List Task) (entries : List DailyEntry)
    (sprintStore : SprintStore) : PatternAnalysis × SprintStore :=
  let sprintR := getSprintStatus cfg today sprintStore
  let sprint := sprintR.1
  let avoidancePatterns : List AvoidancePattern :=
    (tasks.filter (fun t =>
      decide (t.rollForwardCount ≥ 3) && t.completedAt.isNone)).map
      (fun t =>
        { taskId := t.id
          taskContent := t.content
          rollCount := t.rollForwardCount
          firstRolled := firstRolledOf t
          category := t.priority })
  let allReadings := getRecentEnergyReadings now 7 entries
  let morningReadings := morningOf allReadings
  let afternoonReadings := afternoonOf allReadings
  let eveningReadings := eveningOf allReadings
  let energyTrends : List EnergyTrend :=
    [{ period := .morning
       averageLevel := calculateAverageEnergy morningReadings
       sampleCount := morningReadings.length },
     { period := .afternoon
       averageLevel := calculateAverageEnergy afternoonReadings
       sampleCount := afternoonReadings.length },
     { period := .evening
       averageLevel := calculateAverageEnergy eveningReadings
       sampleCount := eveningReadings.length }]
  let completionRate : ℚ :=
    if totalCompleted now entries + totalRolled now entries > 0 then
      (totalCompleted now entries : ℚ) /
        ((totalCompleted now entries : ℚ) + (totalRolled now entries : ℚ))
    else 0
  let activeTasks := tasks.filter (fun t => t.completedAt.isNone)
  let categoryBalance : CategoryBalance :=
    { deep := (activeTasks.filter (fun t => decide (t.priority = .deep))).length
      standard :=
        (activeTasks.filter (fun t => decide (t.priority = .standard))).length
      light :=
        (activeTasks.filter (fun t => decide (t.priority = .light))).length
      someday :=
        (activeTasks.filter (fun t => decide (t.priority = .someday))).length }
  let avgEnergy := calculateAverageEnergy allReadings
  let burnoutRisk : BurnoutRisk :=
    if sprint.status = .danger ∨ avgEnergy < 2.5 then .high
    else if sprint.status = .warning ∨ avgEnergy < 3.5 then .medium
    else .low
  ({ avoidancePatterns := avoidancePatterns
     energyTrends := energyTrends
     completionRate := completionRate
     categoryBalance := categoryBalance
     burnoutRisk := burnoutRisk },
   sprintR.2)

/-- A backing JSON file as `loadState` in `state.ts` sees it: absent,
present but unparsable, or parsed to a value. -/
inductive FileState (α : Type)
  | missing
  | corrupt
  | valid (value : α)

/-- `loadState` from `state.ts`: the parsed value, or the supplied default
when the file is missing or `JSON.parse` throws. -/
def loadState {α : Type} (file : FileState α) (defaultValue : α) : α :=
  match file with
  | .valid v => v
  | .missing => defaultValue
  | .corrupt => defaultValue

/-- The `TaskStore` shape of `tasks.json`. -/
structure TaskStoreFile where
  tasks : List Task
  lastUpdated : String
deriving DecidableEq, Repr

/-- `loadTasks` from `state.ts`. -/
def loadTasks (file : FileState TaskStoreFile) : List Task :=
  (loadState file { tasks := [], lastUpdated := "" }).tasks

/-- The `DailyStore` shape of `daily.json` (the entries map as a list). -/
structure DailyStoreFile where
  entries : List DailyEntry
deriving DecidableEq, Repr

/-- `loadDailyEntries` from `state.ts`. -/
def loadDailyEntries (file : FileState DailyStoreFile) : List DailyEntry :=
  (loadState file { entries := [] }).entries

/-- The sprint-store load performed by `getSprintStatus` (`sprint.json`). -/
def loadSprintStore (today : Int) (file : FileState SprintStore) :
    SprintStore :=
  loadState file (freshSprintStore today)

/-- The session types of `Session.type` in `types.ts`. -/
inductive SessionType
  | briefing
  | card
  | energy
  | accountability
  | general
deriving DecidableEq, Repr

/-- `Session` from `types.ts`. -/
structure Session where
  id : String
  startedAt : String
  lastActivity : String
  type : SessionType
deriving DecidableEq, Repr

/-- The `SessionStore` shape of `sessions.json`. -/
structure SessionStoreFile where
  currentSession : Option Session := none
  history : List Session := []
deriving DecidableEq, Repr

/-- The session-store load performed by the session operations
(`getCurrentSession`, `startSession`, `updateSession`, `endSession`). -/
def loadSessionStore (file : FileState SessionStoreFile) : SessionStoreFile :=
  loadState file { currentSession := none, history := [] }

theorem foldl_add_map_sum {α : Type} (f : α → Nat) (l : List α) :
    ∀ n : Nat, l.foldl (fun acc x => acc + f x) n = n + (l.map f).sum := by
  induction l with
  | nil => intro n; simp
  | cons x xs ih => intro n; simp [List.foldl_cons, ih]; omega

theorem foldl_add_map_sum_rat {α : Type} (f : α → ℚ) (l : List α) :
    ∀ q : ℚ, l.foldl (fun acc x => acc + f x) q = q + (l.map f).sum := by
  induction l with
  | nil => intro q; simp
  | cons x xs ih => intro q; simp [List.foldl_cons, ih]; ring

theorem analyzePatterns_burnoutRisk (cfg : Config) (today : Int) (now : ℚ)
    (tasks : List Task) (entries : List DailyEntry) (store : SprintStore) :
    (analyzePatterns cfg today now tasks entries store).1.burnoutRisk =
      (if (getSprintStatus cfg today store).1.status = .danger ∨
          calculateAverageEnergy (getRecentEnergyReadings now 7 entries) < 2.5
        then .high
        else if (getSprintStatus cfg today store).1.status = .warning ∨
            calculateAverageEnergy (getRecentEnergyReadings now 7 entries) < 3.5
          then .medium
          else .low) := rfl

/-- Claim C2: the burnout risk of `analyzePatterns` is `high` exactly when the
sprint status is `danger` or the mean weight of all trailing-7-day energy
readings is below 2.5; failing that it is `medium` exactly when the sprint
status is `warning` or that mean is below 3.5; failing both it is `low`; in
particular a `danger` sprint always yields `high`. -/
theorem burnout_risk_classification (cfg : Config) (today : Int) (now : ℚ)
    (tasks : List Task) (entries : List DailyEntry) (store : SprintStore) :
    ((analyzePatterns cfg today now tasks entries store).1.burnoutRisk = .high ↔
      ((getSprintStatus cfg today store).1.status = .danger ∨
        calculateAverageEnergy (getRecentEnergyReadings now 7 entries) < 2.5)) ∧
    ((analyzePatterns cfg today now tasks entries store).1.burnoutRisk
        = .medium ↔
      (¬((getSprintStatus cfg today store).1.status = .danger ∨
          calculateAverageEnergy (getRecentEnergyReadings now 7 entries)
            < 2.5) ∧
        ((getSprintStatus cfg today store).1.status = .warning ∨
          calculateAverageEnergy (getRecentEnergyReadings now 7 entries)
            < 3.5))) ∧
    ((analyzePatterns cfg today now tasks entries store).1.burnoutRisk = .low ↔
      (¬((getSprintStatus cfg today store).1.status = .danger ∨
          calculateAverageEnergy (getRecentEnergyReadings now 7 entries)
            < 2.5) ∧
        ¬((getSprintStatus cfg today store).1.status = .warning ∨
          calculateAverageEnergy (getRecentEnergyReadings now 7 entries)
            < 3.5))) ∧
    ((getSprintStatus cfg today store).1.status = .danger →
      (analyzePatterns cfg today now tasks entries store).1.burnoutRisk
        = .high) := by
  rw [analyzePatterns_burnoutRisk cfg today now tasks entries store]
  refine ⟨?_, ?_, ?_, ?_⟩ <;> split_ifs with h1 h2 <;> simp_all

/-- Witness for C2: with a sprint already at day 5 against `dangerDay = 4`,
`analyzePatterns` reports `high` burnout risk. -/
theorem burnout_risk_classification_witness :
    (analyzePatterns ⟨2, 4⟩ 0 0 [] [] ⟨5, 0, 0, []⟩).1.burnoutRisk = .high := by
  have h := burnout_risk_classification ⟨2, 4⟩ 0 0 [] [] ⟨5, 0, 0, []⟩
  exact h.2.2.2 (by decide)

/-- Claim C4: over the daily entries of the trailing 7 days, the completion
rate of `analyzePatterns` equals completions divided by completions plus
roll-forwards (sums of the recorded id-list lengths), is `0` when that
denominator is `0`, and always lies in `[0, 1]`. -/
theorem completion_rate_spec (cfg : Config) (today : Int) (now : ℚ)
    (tasks : List Task) (entries : List DailyEntry) (store : SprintStore) :
    totalCompleted now entries =
      ((recentDays now entries).map (fun e => e.tasksCompleted.length)).sum ∧
    totalRolled now entries =
      ((recentDays now entries).map
        (fun e => e.tasksRolledForward.length)).sum ∧
    (totalCompleted now entries + totalRolled now entries ≠ 0 →
      (analyzePatterns cfg today now tasks entries store).1.completionRate =
        (totalCompleted now entries : ℚ) /
          ((totalCompleted now entries : ℚ) +
            (totalRolled now entries : ℚ))) ∧
    (totalCompleted now entries + totalRolled now entries = 0 →
      (analyzePatterns cfg today now tasks entries store).1.completionRate
        = 0) ∧
    0 ≤ (analyzePatterns cfg today now tasks entries store).1.completionRate ∧
    (analyzePatterns cfg today now tasks entries store).1.completionRate
      ≤ 1 := by
  have hrate :
      (analyzePatterns cfg today now tasks entries store).1.completionRate =
        (if totalCompleted now entries + totalRolled now entries > 0 then
          (totalCompleted now entries : ℚ) /
            ((totalCompleted now entries : ℚ) + (totalRolled now entries : ℚ))
        else 0) := rfl
  refine ⟨?_, ?_, ?_, ?_, ?_, ?_⟩
  · simpa using foldl_add_map_sum (fun e => e.tasksCompleted.length)
      (recentDays now entries) 0
  · simpa using foldl_add_map_sum (fun e => e.tasksRolledForward.length)
      (recentDays now entries) 0
  · intro hne
    rw [hrate, if_pos (Nat.pos_of_ne_zero hne)]
  · intro h0
    rw [hrate, if_neg (by omega)]
  · rw [hrate]
    split_ifs with h
    · positivity
    · exact le_refl 0
  · rw [hrate]
    split_ifs with h
    · have hpos : (0 : ℚ) <
          (totalCompleted now entries : ℚ) + (totalRolled now entries : ℚ) := by
        exact_mod_cast h
      rw [div_le_one hpos]
      exact le_add_of_nonneg_right (by positivity)
    · exact zero_le_one

/-- Witness for C4: spec scenario 5 — a week with 3 completions and 1
roll-forward has completion rate `0.75`. -/
theorem completion_rate_spec_witness :
    (analyzePatterns ⟨2, 4⟩ 0 7 []
        [{ date := 6, tasksCompleted := ["a", "b"],
           tasksRolledForward := ["c"] },
         { date := 7, tasksCompleted := ["d"] }]
        ⟨1, 0, 0, []⟩).1.completionRate = 3 / 4 := by
  have h := completion_rate_spec ⟨2, 4⟩ 0 7 []
    [{ date := 6, tasksCompleted := ["a", "b"], tasksRolledForward := ["c"] },
     { date := 7, tasksCompleted := ["d"] }]
    ⟨1, 0, 0, []⟩
  have htc : totalCompleted 7
      [{ date := 6, tasksCompleted := ["a", "b"],
         tasksRolledForward := ["c"] },
       { date := 7, tasksCompleted := ["d"] }] = 3 := by
    norm_num [totalCompleted, recentDays, List.filter_cons, List.foldl]
  have htr : totalRolled 7
      [{ date := 6, tasksCompleted := ["a", "b"],
         tasksRolledForward := ["c"] },
       { date := 7, tasksCompleted := ["d"] }] = 1 := by
    norm_num [totalRolled, recentDays, List.filter_cons, List.foldl]
  rw [h.2.2.1 (by rw [htc, htr]; omega), htc, htr]
  norm_num

theorem bucket_lengths (l : List EnergyReading) :
    (morningOf l).length + (afternoonOf l).length + (eveningOf l).length
      = l.length := by
  induction l with
  | nil => rfl
  | cons r rs ih =>
    simp only [morningOf, afternoonOf, eveningOf, List.filter_cons] at ih ⊢
    rcases Nat.lt_or_ge r.hour 6 with h1 | h1
    · simp [show ¬ 6 ≤ r.hour by omega, show ¬ 12 ≤ r.hour by omega,
        show ¬ 18 ≤ r.hour by omega, h1]
      omega
    · rcases Nat.lt_or_ge r.hour 12 with h2 | h2
      · simp [h1, h2, show ¬ 12 ≤ r.hour by omega,
          show ¬ 18 ≤ r.hour by omega, show ¬ r.hour < 6 by omega]
        omega
      · rcases Nat.lt_or_ge r.hour 18 with h3 | h3
        · simp [h2, h3, show ¬ r.hour < 12 by omega,
            show ¬ 18 ≤ r.hour by omega, show ¬ r.hour < 6 by omega]
          omega
        · simp [h3, show ¬ r.hour < 12 by omega,
            show ¬ r.hour < 18 by omega]
          omega

theorem bucket_membership (l : List EnergyReading) (r : EnergyReading)
    (hr : r ∈ l) :
    (r ∈ morningOf l ∧ r ∉ afternoonOf l ∧ r ∉ eveningOf l) ∨
    (r ∉ morningOf l ∧ r ∈ afternoonOf l ∧ r ∉ eveningOf l) ∨
    (r ∉ morningOf l ∧ r ∉ afternoonOf l ∧ r ∈ eveningOf l) := by
  have hm : r ∈ morningOf l ↔ (6 ≤ r.hour ∧ r.hour < 12) := by
    simp [morningOf, List.mem_filter, hr]
  have ha : r ∈ afternoonOf l ↔ (12 ≤ r.hour ∧ r.hour < 18) := by
    simp [afternoonOf, List.mem_filter, hr]
  have he : r ∈ eveningOf l ↔ (18 ≤ r.hour ∨ r.hour < 6) := by
    simp [eveningOf, List.mem_filter, hr]
  rw [hm, ha, he]
  omega

/-- Claim C5: `analyzePatterns` reports exactly three energy-trend buckets —
morning `[6, 12)`, afternoon `[12, 18)`, evening `[18, 24) ∪ [0, 6)` by local
hour — partitioning the trailing-7-day readings; each bucket carries its
sample count and the mean of the fixed weights `high = 5, medium = 4,
low = 3, depleted = 2, recovery = 1`; an empty bucket reports average exactly
`0` and count `0`. -/
theorem energy_trends_spec (cfg : Config) (today : Int) (now : ℚ)
    (tasks : List Task) (entries : List DailyEntry) (store : SprintStore) :
    (analyzePatterns cfg today now tasks entries store).1.energyTrends =
      [{ period := .morning
         averageLevel := calculateAverageEnergy
           (morningOf (getRecentEnergyReadings now 7 entries))
         sampleCount :=
           (morningOf (getRecentEnergyReadings now 7 entries)).length },
       { period := .afternoon
         averageLevel := calculateAverageEnergy
           (afternoonOf (getRecentEnergyReadings now 7 entries))
         sampleCount :=
           (afternoonOf (getRecentEnergyReadings now 7 entries)).length },
       { period := .evening
         averageLevel := calculateAverageEnergy
           (eveningOf (getRecentEnergyReadings now 7 entries))
         sampleCount :=
           (eveningOf (getRecentEnergyReadings now 7 entries)).length }] ∧
    (morningOf (getRecentEnergyReadings now 7 entries)).length +
        (afternoonOf (getRecentEnergyReadings now 7 entries)).length +
        (eveningOf (getRecentEnergyReadings now 7 entries)).length =
      (getRecentEnergyReadings now 7 entries).length ∧
    (∀ r ∈ getRecentEnergyReadings now 7 entries,
      (r ∈ morningOf (getRecentEnergyReadings now 7 entries) ∧
        r ∉ afternoonOf (getRecentEnergyReadings now 7 entries) ∧
        r ∉ eveningOf (getRecentEnergyReadings now 7 entries)) ∨
      (r ∉ morningOf (getRecentEnergyReadings now 7 entries) ∧
        r ∈ afternoonOf (getRecentEnergyReadings now 7 entries) ∧
        r ∉ eveningOf (getRecentEnergyReadings now 7 entries)) ∨
      (r ∉ morningOf (getRecentEnergyReadings now 7 entries) ∧
        r ∉ afternoonOf (getRecentEnergyReadings now 7 entries) ∧
        r ∈ eveningOf (getRecentEnergyReadings now 7 entries))) ∧
    (∀ t ∈ (analyzePatterns cfg today now tasks entries store).1.energyTrends,
      t.sampleCount = 0 → t.averageLevel = 0) ∧
    (∀ l : List EnergyReading, l.length ≠ 0 →
      calculateAverageEnergy l =
        (l.map (fun r => levelValue r.level)).sum / (l.length : ℚ)) ∧
    levelValue .high = 5 ∧ levelValue .medium = 4 ∧ levelValue .low = 3 ∧
    levelValue .depleted = 2 ∧ levelValue .recovery = 1 := by
  have htrends :
      (analyzePatterns cfg today now tasks entries store).1.energyTrends =
        [{ period := .morning
           averageLevel := calculateAverageEnergy
             (morningOf (getRecentEnergyReadings now 7 entries))
           sampleCount :=
             (morningOf (getRecentEnergyReadings now 7 entries)).length },
         { period := .afternoon
           averageLevel := calculateAverageEnergy
             (afternoonOf (getRecentEnergyReadings now 7 entries))
           sampleCount :=
             (afternoonOf (getRecentEnergyReadings now 7 entries)).length },
         { period := .evening
           averageLevel := calculateAverageEnergy
             (eveningOf (getRecentEnergyReadings now 7 entries))
           sampleCount :=
             (eveningOf (getRecentEnergyReadings now 7 entries)).length }] :=
    rfl
  refine ⟨htrends, bucket_lengths _,
    fun r hr => bucket_membership _ r hr, ?_, ?_,
    rfl, rfl, rfl, rfl, rfl⟩
  · intro t ht h0
    rw [htrends] at ht
    simp only [List.mem_cons, List.not_mem_nil, or_false] at ht
    rcases ht with rfl | rfl | rfl <;>
      (simp only at h0 ⊢; rw [calculateAverageEnergy, if_pos h0])
  · intro l hl
    rw [calculateAverageEnergy, if_neg hl]
    have := foldl_add_map_sum_rat (fun r => levelValue r.level) l 0
    rw [this, zero_add]

/-- Witness for C5: spec scenario 4 — morning readings `[high, high, low]`
average `13/3 ≈ 4.33`, and the empty afternoon and evening buckets report
average `0` with count `0`. -/
theorem energy_trends_spec_witness :
    (analyzePatterns ⟨2, 4⟩ 0 7 []
        [{ date := 7,
           energyReadings :=
             [{ timestamp := 1, hour := 9, level := .high },
              { timestamp := 2, hour := 10, level := .high },
              { timestamp := 3, hour := 11, level := .low }] }]
        ⟨1, 0, 0, []⟩).1.energyTrends =
      [{ period := .morning, averageLevel := 13 / 3, sampleCount := 3 },
       { period := .afternoon, averageLevel := 0, sampleCount := 0 },
       { period := .evening, averageLevel := 0, sampleCount := 0 }] := by
  have h := energy_trends_spec ⟨2, 4⟩ 0 7 []
    [{ date := 7,
       energyReadings :=
         [{ timestamp := 1, hour := 9, level := .high },
          { timestamp := 2, hour := 10, level := .high },
          { timestamp := 3, hour := 11, level := .low }] }]
    ⟨1, 0, 0, []⟩
  rw [h.1]
  have hall : getRecentEnergyReadings 7 7
      [{ date := 7,
         energyReadings :=
           [{ timestamp := 1, hour := 9, level := .high },
            { timestamp := 2, hour := 10, level := .high },
            { timestamp := 3, hour := 11, level := .low }] }] =
      [{ timestamp := 1, hour := 9, level := .high },
       { timestamp := 2, hour := 10, level := .high },
       { timestamp := 3, hour := 11, level := .low }] := by
    norm_num [getRecentEnergyReadings, List.filter_cons, sortByTime,
      insertByTime]
  rw [hall]
  norm_num [morningOf, afternoonOf, eveningOf, List.filter_cons,
    calculateAverageEnergy, List.foldl, levelValue]

/-- Claim C9: every load operation substitutes its documented default when
the backing file is missing or unparsable — an empty task list, an empty
daily-entries map, a fresh sprint state for today, and an empty session store
with no current session and empty history. -/
theorem load_fail_open (today : Int) :
    loadTasks .missing = [] ∧ loadTasks .corrupt = [] ∧
    loadDailyEntries .missing = [] ∧ loadDailyEntries .corrupt = [] ∧
    loadSprintStore today .missing =
      { currentDay := 1, startDate := today, lastWorkDay := today,
        restDays := [] } ∧
    loadSprintStore today .corrupt =
      { currentDay := 1, startDate := today, lastWorkDay := today,
        restDays := [] } ∧
    loadSessionStore .missing = { currentSession := none, history := [] } ∧
    loadSessionStore .corrupt = { currentSession := none, history := [] } :=
  ⟨rfl, rfl, rfl, rfl, rfl, rfl, rfl, rfl⟩

/-- Claim C7 fails on the code: `analyzePatterns` derives `firstRolled` from
the first element of `notes` whatever it is, not from the earliest
roll-forward note. For a task whose notes begin with the free-text creation
annotation `"urgent"` (as `toolAddTask` produces) followed by three
roll-forward notes, the reported `firstRolled` is `"urgent"`, not the date
`"2026-01-01"` of the earliest roll-forward note. -/
theorem firstRolled_uses_first_note_not_first_roll_note :
    ((analyzePatterns ⟨14, 21⟩ 0 0
        [{ id := "t1", content := "Write report", priority := .deep,
           createdAt := "2025-12-30T10:00:00Z",
           rollForwardCount := 3,
           notes := ["urgent",
                     "Rolled forward on 2026-01-01",
                     "Rolled forward on 2026-01-02",
                     "Rolled forward on 2026-01-03"] }]
        [] ⟨1, 0, 0, []⟩).1.avoidancePatterns.map
      (fun p => p.firstRolled)) = ["urgent"] ∧
    ("urgent" : String) ≠ "2026-01-01" := by
  constructor
  · rfl
  · decide

end HybridSystem
